import Mathlib

/-
Shallow embedding of the medical expert system's inference engine:
  - src/symptoms.py      (SeverityLevel, Symptom severity weights, PatientSymptoms)
  - src/knowledge_base.py (Urgency, Disease, the shipped 38-disease catalog)
  - src/inference_engine.py (DiagnosisResult, InferenceEngine)
Python floats are modelled as exact rationals (ℚ); all decimal literals in the
source are exactly representable.  Python sets are modelled as Finset String,
Python dicts as Option-valued functions (a dict has at most one entry per key).
Presentation-only string fields (names, descriptions, generated explanation
text, whose content depends on Python's nondeterministic set-iteration order)
are not part of the embedding; every field consulted by the scoring, ranking,
risk and backward-chaining logic is embedded.
-/

namespace MedDiag

/-- symptoms.py SeverityLevel: LEVE=1, MODERADO=2, GRAVE=3, CRITICO=4. -/
inductive SeverityLevel
  | LEVE
  | MODERADO
  | GRAVE
  | CRITICO
deriving DecidableEq, Repr

/-- The numeric value of a severity level (the Enum value in the source). -/
def SeverityLevel.value : SeverityLevel → ℕ
  | .LEVE => 1
  | .MODERADO => 2
  | .GRAVE => 3
  | .CRITICO => 4

/-- knowledge_base.py Urgency enumeration. -/
inductive Urgency
  | AUTOCUIDADO
  | CONSULTA_PROGRAMADA
  | CONSULTA_URGENTE
  | EMERGENCIA
deriving DecidableEq, Repr

/-- knowledge_base.py Disease: the fields read by the inference engine
(id, the four symptom-id sets, urgency). -/
structure Disease where
  id : String
  required_symptoms : Finset String
  common_symptoms : Finset String
  optional_symptoms : Finset String
  excluding_symptoms : Finset String
  urgency : Urgency
deriving DecidableEq

/-- symptoms.py PatientSymptoms: a set of reported symptom ids plus
per-symptom dicts for severity, duration (days) and a free-text note. -/
structure PatientSymptoms where
  symptoms : Finset String
  severity_levels : String → Option SeverityLevel
  duration_days : String → Option Int
  notes : String → Option String

/-- PatientSymptoms.add_symptom: adds the id to the set and overwrites the
severity and duration entries; the note entry is written only when the new
note is non-empty (`if note:` in the source). -/
def PatientSymptoms.add_symptom (p : PatientSymptoms) (symptom_id : String)
    (severity : SeverityLevel) (duration : Int) (note : String) : PatientSymptoms :=
  ⟨insert symptom_id p.symptoms,
   fun s => if s = symptom_id then some severity else p.severity_levels s,
   fun s => if s = symptom_id then some duration else p.duration_days s,
   if note = "" then p.notes
   else fun s => if s = symptom_id then some note else p.notes s⟩

/-- PatientSymptoms.get_severity: dict .get, no default. -/
def PatientSymptoms.get_severity (p : PatientSymptoms) (symptom_id : String) :
    Option SeverityLevel :=
  p.severity_levels symptom_id

/-- PatientSymptoms.get_duration: dict .get with default 0. -/
def PatientSymptoms.get_duration (p : PatientSymptoms) (symptom_id : String) : Int :=
  (p.duration_days symptom_id).getD 0

/-- The symptom registry as consumed by the engine: symptom id to
catalog severity_weight (the only Symptom field the scoring logic reads). -/
def getSymptomWeight (reg : List (String × ℚ)) (symptom_id : String) : Option ℚ :=
  (reg.find? (fun e => e.fst = symptom_id)).map Prod.snd

/-- PatientSymptoms.calculate_severity_score: for each reported symptom found
in the registry, weight times the reported severity value (MODERADO when no
severity entry exists); symptoms absent from the registry contribute 0. -/
def calculate_severity_score (reg : List (String × ℚ)) (p : PatientSymptoms) : ℚ :=
  ∑ s ∈ p.symptoms,
    match getSymptomWeight reg s with
    | some w => w * (((p.severity_levels s).getD SeverityLevel.MODERADO).value : ℚ)
    | none => 0

/-- inference_engine.py DiagnosisResult (explanation text omitted, see header). -/
structure DiagnosisResult where
  disease : Disease
  confidence : ℚ
  matched_symptoms : Finset String
  missing_key_symptoms : Finset String
  risk_level : String
deriving DecidableEq

/-- Engine constant WEIGHT_REQUIRED. -/
def WEIGHT_REQUIRED : ℚ := 0.4

/-- Engine constant WEIGHT_COMMON. -/
def WEIGHT_COMMON : ℚ := 0.35

/-- Engine constant WEIGHT_OPTIONAL. -/
def WEIGHT_OPTIONAL : ℚ := 0.15

/-- Engine constant WEIGHT_EXCLUDING. -/
def WEIGHT_EXCLUDING : ℚ := 0.10

/-- Engine constant MIN_CONFIDENCE_THRESHOLD. -/
def MIN_CONFIDENCE_THRESHOLD : ℚ := 0.25

/-- Engine constant HIGH_CONFIDENCE_THRESHOLD. -/
def HIGH_CONFIDENCE_THRESHOLD : ℚ := 0.70

/-- required_score in _evaluate_disease: |R ∩ P| / |R|, or 1.0 when R is empty. -/
def requiredScore (d : Disease) (P : Finset String) : ℚ :=
  if d.required_symptoms ≠ ∅ then
    ((d.required_symptoms ∩ P).card : ℚ) / (d.required_symptoms.card : ℚ)
  else 1

/-- common_score in _evaluate_disease: |C ∩ P| / |C|, or 0.5 when C is empty. -/
def commonScore (d : Disease) (P : Finset String) : ℚ :=
  if d.common_symptoms ≠ ∅ then
    ((d.common_symptoms ∩ P).card : ℚ) / (d.common_symptoms.card : ℚ)
  else 0.5

/-- optional_score in _evaluate_disease: |O ∩ P| / |O|, or 0.5 when O is empty. -/
def optionalScore (d : Disease) (P : Finset String) : ℚ :=
  if d.optional_symptoms ≠ ∅ then
    ((d.optional_symptoms ∩ P).card : ℚ) / (d.optional_symptoms.card : ℚ)
  else 0.5

/-- excluding_penalty in _evaluate_disease: 0.15 per excluding symptom present. -/
def excludingPenalty (d : Disease) (P : Finset String) : ℚ :=
  ((d.excluding_symptoms ∩ P).card : ℚ) * 0.15

/-- Embeds _calculate_severity_multiplier: over the matched symptoms that have a
severity entry, average the severity values and map to
clamp(0.8 + (avg - 1) * 0.15, 0.7, 1.3); 1.0 when nothing to average. -/
def severityMultiplier (p : PatientSymptoms) (matched : Finset String) : ℚ :=
  if matched = ∅ then 1
  else
    let withSeverity := matched.filter (fun s => (p.get_severity s).isSome)
    if withSeverity = ∅ then 1
    else
      let total : ℚ :=
        ∑ s ∈ withSeverity, (((p.get_severity s).getD SeverityLevel.MODERADO).value : ℚ)
      let avg := total / (withSeverity.card : ℚ)
      max 0.7 (min 1.3 (0.8 + (avg - 1) * 0.15))

/-- Embeds _calculate_duration_multiplier: over the matched symptoms whose reported
duration is positive, average the durations; < 1 day gives 0.85, 1 to 7 days
gives 1.0 + (avg - 1) * 0.02, beyond 7 days gives 1.1 - (avg - 7) * 0.015
(no lower clamp: the final clamp line in the source is unreachable dead code);
1.0 when nothing to average. -/
def durationMultiplier (p : PatientSymptoms) (matched : Finset String) : ℚ :=
  if matched = ∅ then 1
  else
    let withDuration := matched.filter (fun s => 0 < p.get_duration s)
    if withDuration = ∅ then 1
    else
      let total : ℚ := ∑ s ∈ withDuration, ((p.get_duration s : ℚ))
      let avg := total / (withDuration.card : ℚ)
      if avg < 1 then 0.85
      else if avg ≤ 7 then 1 + (avg - 1) * 0.02
      else 1.1 - (avg - 7) * 0.015

/-- Embeds _determine_risk_level: disease urgency first, then the patient's aggregate
severity score threshold, then the high-confidence threshold. -/
def determineRiskLevel (reg : List (String × ℚ)) (d : Disease) (confidence : ℚ)
    (p : PatientSymptoms) : String :=
  if d.urgency = Urgency.EMERGENCIA then "CRÍTICO"
  else if d.urgency = Urgency.CONSULTA_URGENTE then "ALTO"
  else if 20 < calculate_severity_score reg p then "ALTO"
  else if HIGH_CONFIDENCE_THRESHOLD < confidence then "MODERADO"
  else "BAJO"

/-- The weighted sum of the four scores in _evaluate_disease. -/
def rawConfidence (d : Disease) (P : Finset String) : ℚ :=
  WEIGHT_REQUIRED * requiredScore d P +
  WEIGHT_COMMON * commonScore d P +
  WEIGHT_OPTIONAL * optionalScore d P -
  WEIGHT_EXCLUDING * excludingPenalty d P

/-- The weighted sum after the severity and duration multipliers, which are
taken over required_match ∪ common_match. -/
def adjustedConfidence (d : Disease) (p : PatientSymptoms) : ℚ :=
  rawConfidence d p.symptoms *
    severityMultiplier p
      ((d.required_symptoms ∩ p.symptoms) ∪ (d.common_symptoms ∩ p.symptoms)) *
    durationMultiplier p
      ((d.required_symptoms ∩ p.symptoms) ∪ (d.common_symptoms ∩ p.symptoms))

/-- The final confidence of the non-early-out path: clamped to [0, 1]. -/
def clampedConfidence (d : Disease) (p : PatientSymptoms) : ℚ :=
  max 0 (min 1 (adjustedConfidence d p))

/-- Embeds _evaluate_disease: early-out with confidence required_score * 0.3 when
required_score < 0.5 (risk_level keeps the dataclass default "BAJO"),
otherwise the weighted, multiplier-adjusted, clamped confidence. -/
def evaluateDisease (reg : List (String × ℚ)) (d : Disease)
    (p : PatientSymptoms) : DiagnosisResult :=
  if requiredScore d p.symptoms < 0.5 then
    ⟨d, requiredScore d p.symptoms * 0.3,
     d.required_symptoms ∩ p.symptoms,
     d.required_symptoms \ p.symptoms,
     "BAJO"⟩
  else
    ⟨d, clampedConfidence d p,
     (d.required_symptoms ∩ p.symptoms) ∪ (d.common_symptoms ∩ p.symptoms) ∪
       (d.optional_symptoms ∩ p.symptoms),
     d.required_symptoms \ p.symptoms,
     determineRiskLevel reg d (clampedConfidence d p) p⟩

/-- Descending-by-confidence ordering used by results.sort(reverse=True),
which compares with DiagnosisResult lt on confidence. -/
def confGE (a b : DiagnosisResult) : Prop := b.confidence ≤ a.confidence

instance : DecidableRel confGE :=
  fun a b => inferInstanceAs (Decidable (b.confidence ≤ a.confidence))

instance : IsTotal DiagnosisResult confGE :=
  ⟨fun a b => le_total b.confidence a.confidence⟩

instance : IsTrans DiagnosisResult confGE :=
  ⟨fun _ _ _ h1 h2 => le_trans h2 h1⟩

/-- results.sort(reverse=True): a stable sort, descending by confidence. -/
def sortDescending (results : List DiagnosisResult) : List DiagnosisResult :=
  results.insertionSort confGE

/-- The total the source's _normalize_confidences stores in its local
variable: the sum of the confidences of the surviving results. -/
def totalConfidence (results : List DiagnosisResult) : ℚ :=
  (results.map DiagnosisResult.confidence).sum

/-- Embeds _normalize_confidences: when the list is non-empty and the confidences sum
to a positive total, each confidence becomes 0.7 * (confidence / total)
+ 0.3 * confidence; otherwise the list is returned unchanged. -/
def normalizeConfidences (results : List DiagnosisResult) : List DiagnosisResult :=
  if results = [] then results
  else if 0 < totalConfidence results then
    results.map (fun r =>
      ⟨r.disease,
       0.7 * (r.confidence * (1 / totalConfidence results)) + 0.3 * r.confidence,
       r.matched_symptoms, r.missing_key_symptoms, r.risk_level⟩)
  else results

/-- The loop body of diagnose: every catalog disease evaluated, keeping the
results that reach MIN_CONFIDENCE_THRESHOLD. -/
def candidateResults (kb : List Disease) (reg : List (String × ℚ))
    (p : PatientSymptoms) : List DiagnosisResult :=
  (kb.map (fun d => evaluateDisease reg d p)).filter
    (fun r => MIN_CONFIDENCE_THRESHOLD ≤ r.confidence)

/-- The candidate results after results.sort(reverse=True). -/
def sortedCandidates (kb : List Disease) (reg : List (String × ℚ))
    (p : PatientSymptoms) : List DiagnosisResult :=
  sortDescending (candidateResults kb reg p)

/-- diagnose: evaluate every catalog disease, keep those reaching
MIN_CONFIDENCE_THRESHOLD, sort descending, renormalize when non-empty,
return the first max_results entries. -/
def diagnose (kb : List Disease) (reg : List (String × ℚ)) (p : PatientSymptoms)
    (max_results : ℕ) : List DiagnosisResult :=
  (if sortedCandidates kb reg p ≠ [] then
    normalizeConfidences (sortedCandidates kb reg p)
  else sortedCandidates kb reg p).take max_results

/-- KnowledgeBase.get_disease: lookup by id (dict .get over unique ids). -/
def get_disease (kb : List Disease) (disease_id : String) : Option Disease :=
  kb.find? (fun d => d.id = disease_id)

/-- The outcome reported by backward_chain, replacing the explanation strings
of the source (whose exact text interpolates display names in Python set
order) with the data each branch reports. -/
inductive BackwardOutcome
  | diseaseNotFound
  | missingRequired (missing : Finset String)
  | excludingPresent (present : Finset String)
  | possible (common_percentage : ℚ)
deriving DecidableEq

/-- backward_chain: unknown id fails; then the missing-required check; then
the excluding-symptoms check; otherwise succeeds reporting the percentage of
common symptoms present. -/
def backward_chain (kb : List Disease) (target_disease_id : String)
    (p : PatientSymptoms) : Bool × BackwardOutcome :=
  match get_disease kb target_disease_id with
  | none => (false, BackwardOutcome.diseaseNotFound)
  | some disease =>
    let missing_required := disease.required_symptoms \ p.symptoms
    if missing_required ≠ ∅ then
      (false, BackwardOutcome.missingRequired missing_required)
    else
      let present_excluding := disease.excluding_symptoms ∩ p.symptoms
      if present_excluding ≠ ∅ then
        (false, BackwardOutcome.excludingPresent present_excluding)
      else
        let common_match := disease.common_symptoms ∩ p.symptoms
        let common_percentage : ℚ :=
          if disease.common_symptoms ≠ ∅ then
            (common_match.card : ℚ) / (disease.common_symptoms.card : ℚ) * 100
          else 0
        (true, BackwardOutcome.possible common_percentage)

-- Symptom registry extracted: (id, severity_weight) pairs, catalog order.
def realRegistry : List (String × ℚ) := [
  ("TOS_SECA", 1.2),
  ("TOS_PRODUCTIVA", 1.5),
  ("DIFICULTAD_RESPIRAR", 2.5),
  ("CONGESTION_NASAL", 0.8),
  ("ESTORNUDOS", 0.7),
  ("DOLOR_GARGANTA", 1.3),
  ("SIBILANCIAS", 2.0),
  ("RESPIRACION_RAPIDA", 1.9),
  ("RESPIRACION_SUPERFICIAL", 1.7),
  ("OPRESION_PECHO", 2.2),
  ("SECRECION_NASAL", 0.6),
  ("SANGRADO_NASAL", 1.4),
  ("PICAZON_NARIZ", 0.5),
  ("EXPECTORACION_SANGRE", 2.8),
  ("RONQUIDOS", 0.8),
  ("APNEA_SUENO", 2.1),
  ("NAUSEAS", 1.4),
  ("VOMITO", 1.8),
  ("DIARREA", 1.6),
  ("DOLOR_ABDOMINAL", 1.5),
  ("ACIDEZ", 1.2),
  ("ESTRENIMIENTO", 0.9),
  ("HINCHAZON", 1.0),
  ("GASES", 0.7),
  ("ERUCTOS", 0.6),
  ("REGURGITACION", 1.3),
  ("DIFICULTAD_TRAGAR", 1.9),
  ("SANGRE_HECES", 2.5),
  ("HECES_NEGRAS", 2.6),
  ("VOMITO_SANGRE", 3.0),
  ("PERDIDA_PESO", 1.8),
  ("SABOR_AMARGO", 0.8),
  ("SALIVACION_EXCESIVA", 1.0),
  ("BOCA_SECA", 0.9),
  ("CALAMBRES_ABDOMINALES", 1.4),
  ("SENSACION_PLENITUD", 1.1),
  ("FIEBRE", 2.0),
  ("ESCALOFRIOS", 1.5),
  ("FATIGA", 1.3),
  ("SUDORACION", 1.1),
  ("PERDIDA_APETITO", 1.2),
  ("MALESTAR_GENERAL", 1.0),
  ("SUDORES_NOCTURNOS", 1.4),
  ("DESHIDRATACION", 2.0),
  ("AUMENTO_APETITO", 1.0),
  ("INSOMNIO", 1.2),
  ("SOMNOLENCIA", 1.3),
  ("SENSIBILIDAD_LUZ", 1.5),
  ("SENSIBILIDAD_RUIDO", 1.4),
  ("PALIDEZ", 1.5),
  ("AUMENTO_SED", 1.3),
  ("DOLOR_CABEZA", 1.3),
  ("MAREOS", 1.5),
  ("CONFUSION", 2.2),
  ("VERTIGO", 1.8),
  ("PERDIDA_EQUILIBRIO", 1.9),
  ("HORMIGUEO", 1.4),
  ("ENTUMECIMIENTO", 1.7),
  ("DESMAYO", 2.5),
  ("CONVULSIONES", 3.0),
  ("TEMBLOR", 1.6),
  ("PERDIDA_MEMORIA", 1.8),
  ("DIFICULTAD_CONCENTRACION", 1.2),
  ("PERDIDA_CONCIENCIA", 3.2),
  ("ALTERACION_HABLA", 2.3),
  ("MIGRAÑA", 2.1),
  ("ZUMBIDO_OIDOS", 1.3),
  ("DOLOR_MUSCULAR", 1.4),
  ("DOLOR_ARTICULAR", 1.5),
  ("DEBILIDAD", 1.6),
  ("RIGIDEZ", 1.3),
  ("CALAMBRES", 1.2),
  ("ESPASMOS", 1.3),
  ("HINCHAZON_ARTICULAR", 1.7),
  ("DOLOR_ESPALDA", 1.5),
  ("DOLOR_CUELLO", 1.4),
  ("DOLOR_HOMBRO", 1.4),
  ("COJERA", 1.6),
  ("ATROFIA_MUSCULAR", 2.0),
  ("ERUPCION", 1.7),
  ("PICAZON_PIEL", 1.0),
  ("ENROJECIMIENTO", 1.1),
  ("AMPOLLAS", 1.6),
  ("URTICARIA", 1.5),
  ("PIEL_SECA", 0.7),
  ("DESCAMACION", 0.9),
  ("HEMATOMAS", 1.2),
  ("SUDORACION_EXCESIVA", 1.0),
  ("ACNE", 0.8),
  ("MANCHAS_PIEL", 0.9),
  ("PIEL_AMARILLA", 2.4),
  ("INFLAMACION_PIEL", 1.5),
  ("DOLOR_PIEL", 1.3),
  ("LESIONES_PIEL", 1.8),
  ("CAMBIO_LUNAR", 2.0),
  ("VERRUGAS", 0.8),
  ("PIEL_PALIDA", 1.4),
  ("DOLOR_PECHO", 2.8),
  ("PALPITACIONES", 1.8),
  ("TAQUICARDIA", 2.0),
  ("BRADICARDIA", 1.9),
  ("HINCHAZON_PIERNAS", 1.7),
  ("HINCHAZON_PIES", 1.6),
  ("PRESION_ALTA", 2.1),
  ("PRESION_BAJA", 1.8),
  ("LATIDO_IRREGULAR", 2.3),
  ("EXTREMIDADES_FRIAS", 1.2),
  ("VARICES", 1.1),
  ("CIANOSIS", 2.7),
  ("DOLOR_ORINAR", 1.9),
  ("FRECUENCIA_URINARIA", 1.3),
  ("ORINA_TURBIA", 1.5),
  ("SANGRE_ORINA", 2.4),
  ("OLOR_FUERTE_ORINA", 1.2),
  ("URGENCIA_URINARIA", 1.6),
  ("INCONTINENCIA", 1.7),
  ("DIFICULTAD_ORINAR", 1.8),
  ("RETENCION_URINARIA", 2.2),
  ("ORINA_OSCURA", 1.6),
  ("MICCION_NOCTURNA", 1.3),
  ("VISION_BORROSA", 1.6),
  ("OJOS_ROJOS", 1.2),
  ("PICAZON_OJOS", 1.0),
  ("LAGRIMEO", 0.9),
  ("OJO_SECO", 1.1),
  ("DOLOR_OJOS", 1.7),
  ("SENSIBILIDAD_LUZ_OJOS", 1.5),
  ("VISION_DOBLE", 2.1),
  ("PUNTOS_VISION", 1.3),
  ("PERDIDA_VISION", 2.8),
  ("HALOS_LUZ", 1.4),
  ("SECRECION_OCULAR", 1.3),
  ("HINCHAZON_PARPADOS", 1.4),
  ("OJOS_AMARILLOS", 2.5),
  ("DOLOR_OIDO", 1.7),
  ("SECRECION_OIDO", 1.8),
  ("PERDIDA_AUDICION", 1.9),
  ("CONGESTION_OIDO", 1.2),
  ("RONQUERA", 1.3),
  ("PERDIDA_VOZ", 1.6),
  ("HINCHAZON_GARGANTA", 2.0),
  ("MANCHAS_GARGANTA", 1.8),
  ("MAL_ALIENTO", 0.8),
  ("PERDIDA_GUSTO", 1.5),
  ("PERDIDA_OLFATO", 1.5),
  ("IRRITACION_GARGANTA", 1.1),
  ("GARGANTA_SECA", 1.0),
  ("GANGLIOS_INFLAMADOS", 1.7),
  ("CALOR_LOCAL", 1.4),
  ("ESCALOFRIOS_NOCHE", 1.6),
  ("IRRITABILIDAD", 1.1),
  ("ANSIEDAD", 1.5),
  ("CAMBIOS_HUMOR", 1.2),
  ("DOLOR_PIERNAS", 1.3),
  ("DOLOR_BRAZOS", 1.3),
  ("HINCHAZON_MANOS", 1.4),
  ("HINCHAZON_CARA", 1.7),
  ("HINCHAZON_CUELLO", 1.9),
  ("SANGRADO_ENCIAS", 1.2),
  ("DOLOR_ENCIAS", 1.3),
  ("SENSIBILIDAD_DENTAL", 1.2),
  ("DOLOR_DENTAL", 1.8),
  ("LENGUA_BLANCA", 0.9),
  ("LLAGAS_BOCA", 1.4),
  ("DOLOR_BOCA", 1.3),
  ("DOLOR_FACIAL", 1.6),
  ("PRESION_FACIAL", 1.5),
  ("HAMBRE_EXTREMA", 1.3),
  ("INTOLERANCIA_CALOR", 1.2),
  ("SOFOCAMIENTO", 2.3),
  ("URGENCIA_DEFECACION", 1.5),
  ("SENSACION_EVACUACION_INCOMPLETA", 1.2),
  ("DOLOR_ANAL", 1.7),
  ("PICAZON_ANAL", 1.1),
  ("HINCHAZON_ANAL", 1.6),
  ("INCOMODIDAD_DEFECAR", 1.4),
  ("PROTRUSION_ANAL", 1.8),
  ("DOLOR_DEFECAR", 1.6),
  ("HINCHAZON_LABIOS", 1.9),
  ("PIEL_AGRIETADA", 1.3),
  ("OLOR_DESAGRADABLE_PIEL", 1.4),
  ("DIFICULTAD_MOVIMIENTO", 1.7),
  ("DOLOR_MOVIMIENTO", 1.6),
  ("FATIGA_OCULAR", 1.1),
  ("DIFICULTAD_LEER", 1.4),
  ("OJOS_SALTONES", 2.2),
  ("UÑAS_QUEBRADIZAS", 0.9),
  ("PERDIDA_CABELLO", 1.3),
  ("MAREOS_LEVES", 1.0),
  ("DOLOR_SENTARSE", 1.5),
  ("FIEBRE_BAJA", 1.2),
  ("SATURACION_BAJA", 3.0)
]

-- Disease catalog extracted in registration order.
def realKB : List Disease := [
  ⟨"GRIPE", {"FATIGA", "FIEBRE"}, {"DOLOR_ARTICULAR", "DOLOR_CABEZA", "DOLOR_GARGANTA", "DOLOR_MUSCULAR", "ESCALOFRIOS", "MALESTAR_GENERAL", "SUDORACION", "TOS_SECA"}, {"CONGESTION_NASAL", "DEBILIDAD", "DOLOR_PECHO", "ESCALOFRIOS_NOCHE", "ESTORNUDOS", "NAUSEAS", "PERDIDA_APETITO", "SUDORES_NOCTURNOS"}, {"DIARREA", "ERUPCION", "PICAZON_PIEL"}, Urgency.AUTOCUIDADO⟩,
  ⟨"RESFRIADO", {"CONGESTION_NASAL"}, {"DOLOR_GARGANTA", "ESTORNUDOS", "GARGANTA_SECA", "IRRITACION_GARGANTA", "SECRECION_NASAL", "TOS_SECA"}, {"DOLOR_CABEZA", "FATIGA", "LAGRIMEO", "MALESTAR_GENERAL", "OJOS_ROJOS", "PERDIDA_GUSTO", "PERDIDA_OLFATO", "PICAZON_NARIZ"}, {"FIEBRE"}, Urgency.AUTOCUIDADO⟩,
  ⟨"BRONQUITIS", {"TOS_PRODUCTIVA"}, {"DIFICULTAD_RESPIRAR", "DOLOR_PECHO", "FATIGA", "OPRESION_PECHO", "RESPIRACION_SUPERFICIAL", "SIBILANCIAS"}, {"CONGESTION_NASAL", "DOLOR_CABEZA", "DOLOR_GARGANTA", "ESCALOFRIOS", "FIEBRE", "MALESTAR_GENERAL", "SUDORACION"}, ∅, Urgency.CONSULTA_PROGRAMADA⟩,
  ⟨"FARINGITIS", {"DOLOR_GARGANTA"}, {"DIFICULTAD_TRAGAR", "DOLOR_CABEZA", "FIEBRE", "GANGLIOS_INFLAMADOS", "HINCHAZON_GARGANTA", "IRRITACION_GARGANTA"}, {"DOLOR_MUSCULAR", "DOLOR_OIDO", "FATIGA", "MAL_ALIENTO", "MANCHAS_GARGANTA", "PERDIDA_VOZ", "RONQUERA", "TOS_SECA"}, {"SIBILANCIAS", "TOS_PRODUCTIVA"}, Urgency.CONSULTA_PROGRAMADA⟩,
  ⟨"SINUSITIS", {"CONGESTION_NASAL", "DOLOR_CABEZA"}, {"DOLOR_FACIAL", "PERDIDA_OLFATO", "PRESION_FACIAL", "SECRECION_NASAL", "TOS_PRODUCTIVA"}, {"DOLOR_CUELLO", "DOLOR_DENTAL", "DOLOR_OIDO", "FATIGA", "FIEBRE", "MAL_ALIENTO", "SENSIBILIDAD_DENTAL"}, ∅, Urgency.CONSULTA_PROGRAMADA⟩,
  ⟨"ASMA", {"DIFICULTAD_RESPIRAR", "SIBILANCIAS"}, {"OPRESION_PECHO", "RESPIRACION_RAPIDA", "RESPIRACION_SUPERFICIAL", "TOS_SECA"}, {"ANSIEDAD", "FATIGA", "PALPITACIONES", "SUDORACION"}, {"FIEBRE", "TOS_PRODUCTIVA"}, Urgency.CONSULTA_URGENTE⟩,
  ⟨"NEUMONIA", {"DIFICULTAD_RESPIRAR", "FIEBRE", "TOS_PRODUCTIVA"}, {"DOLOR_PECHO", "ESCALOFRIOS", "EXPECTORACION_SANGRE", "FATIGA", "RESPIRACION_RAPIDA", "SUDORACION"}, {"CONFUSION", "DEBILIDAD", "DOLOR_MUSCULAR", "MALESTAR_GENERAL", "NAUSEAS", "PALIDEZ", "VOMITO"}, ∅, Urgency.EMERGENCIA⟩,
  ⟨"GASTRITIS", {"ACIDEZ", "DOLOR_ABDOMINAL"}, {"ERUCTOS", "HINCHAZON", "NAUSEAS", "PERDIDA_APETITO", "REGURGITACION", "SENSACION_PLENITUD"}, {"MALESTAR_GENERAL", "SABOR_AMARGO", "SALIVACION_EXCESIVA", "VOMITO"}, {"DIARREA", "FIEBRE", "SANGRE_HECES"}, Urgency.CONSULTA_PROGRAMADA⟩,
  ⟨"GASTROENTERITIS", {"DIARREA"}, {"CALAMBRES_ABDOMINALES", "DOLOR_ABDOMINAL", "FIEBRE", "NAUSEAS", "VOMITO"}, {"BOCA_SECA", "DEBILIDAD", "DESHIDRATACION", "DOLOR_CABEZA", "ESCALOFRIOS", "FATIGA", "MALESTAR_GENERAL", "PERDIDA_APETITO"}, ∅, Urgency.CONSULTA_PROGRAMADA⟩,
  ⟨"REFLUJO", {"ACIDEZ", "REGURGITACION"}, {"DIFICULTAD_TRAGAR", "DOLOR_PECHO", "ERUCTOS", "SABOR_AMARGO", "SALIVACION_EXCESIVA"}, {"DOLOR_GARGANTA", "IRRITACION_GARGANTA", "NAUSEAS", "RONQUERA", "TOS_SECA"}, {"DIARREA", "FIEBRE"}, Urgency.CONSULTA_PROGRAMADA⟩,
  ⟨"SII", {"DOLOR_ABDOMINAL"}, {"CALAMBRES_ABDOMINALES", "DIARREA", "ESTRENIMIENTO", "GASES", "HINCHAZON"}, {"FATIGA", "NAUSEAS", "SENSACION_EVACUACION_INCOMPLETA", "URGENCIA_DEFECACION"}, {"FIEBRE", "PERDIDA_PESO", "SANGRE_HECES"}, Urgency.CONSULTA_PROGRAMADA⟩,
  ⟨"INTOXICACION", {"DIARREA", "NAUSEAS", "VOMITO"}, {"CALAMBRES_ABDOMINALES", "DOLOR_ABDOMINAL", "ESCALOFRIOS", "FIEBRE"}, {"DEBILIDAD", "DESHIDRATACION", "DOLOR_CABEZA", "FATIGA", "MAREOS", "SUDORACION"}, ∅, Urgency.CONSULTA_URGENTE⟩,
  ⟨"MIGRANA", {"DOLOR_CABEZA"}, {"MAREOS", "NAUSEAS", "SENSIBILIDAD_LUZ", "SENSIBILIDAD_RUIDO", "VISION_BORROSA"}, {"CONFUSION", "FATIGA", "IRRITABILIDAD", "PUNTOS_VISION", "SENSIBILIDAD_LUZ_OJOS", "VISION_DOBLE", "VOMITO"}, {"CONGESTION_NASAL", "FIEBRE", "TOS_PRODUCTIVA"}, Urgency.CONSULTA_PROGRAMADA⟩,
  ⟨"CEFALEA_TENSIONAL", {"DOLOR_CABEZA"}, {"DIFICULTAD_CONCENTRACION", "DOLOR_CUELLO", "FATIGA", "RIGIDEZ"}, {"DOLOR_HOMBRO", "INSOMNIO", "IRRITABILIDAD", "MAREOS_LEVES", "SENSIBILIDAD_LUZ"}, {"FIEBRE", "NAUSEAS", "VOMITO"}, Urgency.AUTOCUIDADO⟩,
  ⟨"VERTIGO", {"MAREOS", "VERTIGO"}, {"NAUSEAS", "PERDIDA_EQUILIBRIO", "VOMITO", "ZUMBIDO_OIDOS"}, {"CONGESTION_OIDO", "FATIGA", "PALIDEZ", "PERDIDA_AUDICION", "SUDORACION"}, {"DOLOR_CABEZA_INTENSO", "FIEBRE"}, Urgency.CONSULTA_URGENTE⟩,
  ⟨"ANSIEDAD", {"ANSIEDAD"}, {"DIFICULTAD_RESPIRAR", "MAREOS", "PALPITACIONES", "SUDORACION", "TAQUICARDIA", "TEMBLOR"}, {"CONFUSION", "DESMAYO", "DOLOR_PECHO", "ENTUMECIMIENTO", "ESCALOFRIOS", "HORMIGUEO", "NAUSEAS", "SOFOCAMIENTO"}, {"FIEBRE", "TOS_PRODUCTIVA"}, Urgency.CONSULTA_URGENTE⟩,
  ⟨"HIPERTENSION", {"PRESION_ALTA"}, {"DOLOR_CABEZA", "MAREOS", "PALPITACIONES", "VISION_BORROSA", "ZUMBIDO_OIDOS"}, {"ANSIEDAD", "CONFUSION", "DIFICULTAD_RESPIRAR", "DOLOR_PECHO", "NAUSEAS", "SUDORACION"}, ∅, Urgency.EMERGENCIA⟩,
  ⟨"ARRITMIA", {"LATIDO_IRREGULAR", "PALPITACIONES"}, {"DEBILIDAD", "DIFICULTAD_RESPIRAR", "DOLOR_PECHO", "FATIGA", "MAREOS"}, {"ANSIEDAD", "CONFUSION", "DESMAYO", "PALIDEZ", "SUDORACION"}, {"FIEBRE", "TOS_PRODUCTIVA"}, Urgency.EMERGENCIA⟩,
  ⟨"ITU", {"DOLOR_ORINAR"}, {"FRECUENCIA_URINARIA", "OLOR_FUERTE_ORINA", "ORINA_TURBIA", "URGENCIA_URINARIA"}, {"DOLOR_ABDOMINAL", "DOLOR_ESPALDA", "ESCALOFRIOS", "FIEBRE", "ORINA_OSCURA", "SANGRE_ORINA"}, {"CONGESTION_NASAL", "TOS_PRODUCTIVA"}, Urgency.CONSULTA_URGENTE⟩,
  ⟨"CALCULOS_RENALES", {"DOLOR_ABDOMINAL", "DOLOR_ESPALDA"}, {"FRECUENCIA_URINARIA", "NAUSEAS", "SANGRE_ORINA", "URGENCIA_URINARIA", "VOMITO"}, {"DIFICULTAD_ORINAR", "ESCALOFRIOS", "FIEBRE", "ORINA_TURBIA", "SUDORACION"}, ∅, Urgency.EMERGENCIA⟩,
  ⟨"CONJUNTIVITIS", {"OJOS_ROJOS"}, {"HINCHAZON_PARPADOS", "LAGRIMEO", "PICAZON_OJOS", "SECRECION_OCULAR"}, {"DOLOR_OJOS", "OJO_SECO", "SENSIBILIDAD_LUZ_OJOS", "VISION_BORROSA"}, {"FIEBRE", "TOS_PRODUCTIVA"}, Urgency.CONSULTA_PROGRAMADA⟩,
  ⟨"OJO_SECO", {"OJO_SECO"}, {"LAGRIMEO", "OJOS_ROJOS", "PICAZON_OJOS", "SENSIBILIDAD_LUZ_OJOS", "VISION_BORROSA"}, {"DIFICULTAD_LEER", "DOLOR_OJOS", "FATIGA_OCULAR"}, {"FIEBRE", "SECRECION_OCULAR"}, Urgency.CONSULTA_PROGRAMADA⟩,
  ⟨"DERMATITIS", {"ERUPCION", "PICAZON_PIEL"}, {"DESCAMACION", "ENROJECIMIENTO", "INFLAMACION_PIEL", "PIEL_SECA"}, {"DOLOR_PIEL", "LESIONES_PIEL", "PIEL_AGRIETADA"}, {"DOLOR_ARTICULAR", "FIEBRE"}, Urgency.CONSULTA_PROGRAMADA⟩,
  ⟨"URTICARIA", {"PICAZON_PIEL", "URTICARIA"}, {"ENROJECIMIENTO", "ERUPCION", "HINCHAZON_PIEL"}, {"DIFICULTAD_RESPIRAR", "HINCHAZON_CARA", "HINCHAZON_LABIOS", "MAREOS"}, {"FIEBRE"}, Urgency.CONSULTA_URGENTE⟩,
  ⟨"HONGOS_PIEL", {"ERUPCION", "PICAZON_PIEL"}, {"DESCAMACION", "ENROJECIMIENTO", "LESIONES_PIEL", "OLOR_DESAGRADABLE"}, {"AMPOLLAS", "DOLOR_PIEL", "PIEL_AGRIETADA"}, {"DOLOR_ARTICULAR", "FIEBRE"}, Urgency.CONSULTA_PROGRAMADA⟩,
  ⟨"LUMBALGIA", {"DOLOR_ESPALDA"}, {"DIFICULTAD_MOVIMIENTO", "DOLOR_MUSCULAR", "ESPASMOS", "RIGIDEZ"}, {"DEBILIDAD", "DOLOR_PIERNAS", "ENTUMECIMIENTO", "HORMIGUEO"}, {"FIEBRE", "PERDIDA_PESO"}, Urgency.CONSULTA_PROGRAMADA⟩,
  ⟨"ARTRITIS", {"DOLOR_ARTICULAR", "RIGIDEZ"}, {"CALOR_LOCAL", "DIFICULTAD_MOVIMIENTO", "ENROJECIMIENTO", "HINCHAZON_ARTICULAR"}, {"DOLOR_MUSCULAR", "FATIGA", "FIEBRE_BAJA", "PERDIDA_APETITO"}, ∅, Urgency.CONSULTA_PROGRAMADA⟩,
  ⟨"TENDINITIS", {"DOLOR_ARTICULAR"}, {"DOLOR_MOVIMIENTO", "DOLOR_MUSCULAR", "HINCHAZON", "RIGIDEZ"}, {"CALOR_LOCAL", "DEBILIDAD", "ENROJECIMIENTO"}, {"ERUPCION", "FIEBRE"}, Urgency.CONSULTA_PROGRAMADA⟩,
  ⟨"RINITIS_ALERGICA", {"CONGESTION_NASAL", "ESTORNUDOS"}, {"LAGRIMEO", "OJOS_ROJOS", "PICAZON_NARIZ", "PICAZON_OJOS", "SECRECION_NASAL"}, {"DOLOR_CABEZA", "FATIGA", "IRRITACION_GARGANTA", "PERDIDA_OLFATO", "TOS_SECA"}, {"DOLOR_GARGANTA_INTENSO", "FIEBRE"}, Urgency.AUTOCUIDADO⟩,
  ⟨"ALERGIA_ALIMENTARIA", {"PICAZON_PIEL", "URTICARIA"}, {"DIARREA", "DOLOR_ABDOMINAL", "HINCHAZON_CARA", "HINCHAZON_LABIOS", "NAUSEAS", "VOMITO"}, {"DIFICULTAD_RESPIRAR", "HINCHAZON_GARGANTA", "MAREOS", "PALPITACIONES", "SIBILANCIAS"}, {"FIEBRE"}, Urgency.EMERGENCIA⟩,
  ⟨"ANEMIA", {"FATIGA", "PALIDEZ"}, {"DEBILIDAD", "DIFICULTAD_RESPIRAR", "DOLOR_CABEZA", "MAREOS", "PALPITACIONES"}, {"EXTREMIDADES_FRIAS", "IRRITABILIDAD", "PERDIDA_CABELLO", "UÑAS_QUEBRADIZAS"}, {"FIEBRE", "TOS_PRODUCTIVA"}, Urgency.CONSULTA_PROGRAMADA⟩,
  ⟨"DESHIDRATACION", {"BOCA_SECA", "DESHIDRATACION"}, {"AUMENTO_SED", "DOLOR_CABEZA", "FATIGA", "MAREOS", "ORINA_OSCURA"}, {"CALAMBRES", "CONFUSION", "DEBILIDAD", "PALPITACIONES", "PRESION_BAJA"}, ∅, Urgency.CONSULTA_URGENTE⟩,
  ⟨"OTITIS", {"DOLOR_OIDO"}, {"CONGESTION_OIDO", "FIEBRE", "IRRITABILIDAD", "PERDIDA_AUDICION"}, {"DOLOR_CABEZA", "MAREOS", "NAUSEAS", "SECRECION_OIDO", "ZUMBIDO_OIDOS"}, {"ERUPCION"}, Urgency.CONSULTA_URGENTE⟩,
  ⟨"MONONUCLEOSIS", {"DOLOR_GARGANTA", "FATIGA", "FIEBRE"}, {"DOLOR_CABEZA", "DOLOR_MUSCULAR", "GANGLIOS_INFLAMADOS", "HINCHAZON_GARGANTA", "PERDIDA_APETITO"}, {"DEBILIDAD", "DOLOR_ABDOMINAL", "ERUPCION", "HINCHAZON_CUELLO", "SUDORES_NOCTURNOS"}, ∅, Urgency.CONSULTA_URGENTE⟩,
  ⟨"COVID19", {"FIEBRE", "TOS_SECA"}, {"DOLOR_CABEZA", "DOLOR_GARGANTA", "DOLOR_MUSCULAR", "FATIGA", "PERDIDA_GUSTO", "PERDIDA_OLFATO"}, {"CONFUSION", "CONGESTION_NASAL", "DIARREA", "DIFICULTAD_RESPIRAR", "ESCALOFRIOS", "NAUSEAS", "VOMITO"}, ∅, Urgency.CONSULTA_URGENTE⟩,
  ⟨"HIPOGLUCEMIA", {"MAREOS", "SUDORACION"}, {"ANSIEDAD", "DEBILIDAD", "FATIGA", "HAMBRE_EXTREMA", "PALPITACIONES", "TEMBLOR"}, {"CONFUSION", "DOLOR_CABEZA", "IRRITABILIDAD", "PALIDEZ", "VISION_BORROSA"}, {"FIEBRE"}, Urgency.EMERGENCIA⟩,
  ⟨"HIPERTIROIDISMO", {"PALPITACIONES", "PERDIDA_PESO"}, {"ANSIEDAD", "FATIGA", "INTOLERANCIA_CALOR", "SUDORACION", "TAQUICARDIA", "TEMBLOR"}, {"AUMENTO_APETITO", "DEBILIDAD", "DIARREA", "INSOMNIO", "IRRITABILIDAD", "OJOS_SALTONES"}, {"FIEBRE"}, Urgency.CONSULTA_PROGRAMADA⟩,
  ⟨"HEMORROIDES", {"SANGRE_HECES"}, {"DOLOR_ANAL", "HINCHAZON_ANAL", "INCOMODIDAD_DEFECAR", "PICAZON_ANAL"}, {"DOLOR_SENTARSE", "PROTRUSION_ANAL"}, {"FIEBRE", "PERDIDA_PESO"}, Urgency.CONSULTA_PROGRAMADA⟩
]

/-- Modelled from the claim's words (C2): the same piecewise duration formula,
but averaged over the whole matched symptom set rather than only over its
members with a positive reported duration.  Used to compare the spec's
description with the source's `_calculate_duration_multiplier`. -/
def claimDurationMultiplier (p : PatientSymptoms) (matched : Finset String) : ℚ :=
  if matched = ∅ then 1
  else
    let avg := (∑ s ∈ matched, ((p.get_duration s : ℚ))) / (matched.card : ℚ)
    if avg < 1 then 0.85
    else if avg ≤ 7 then 1 + (avg - 1) * 0.02
    else 1.1 - (avg - 7) * 0.015

/-- A patient with no reported symptoms. -/
def emptyPatient : PatientSymptoms := ⟨∅, fun _ => none, fun _ => none, fun _ => none⟩

/-- A synthetic one-required-symptom disease used to instantiate the general
theorems on concrete inputs. -/
def tinyDisease : Disease := ⟨"T1", {"A"}, ∅, ∅, ∅, Urgency.AUTOCUIDADO⟩

/-- A synthetic disease whose four symptom sets are all empty. -/
def noSetsDisease : Disease := ⟨"T0", ∅, ∅, ∅, ∅, Urgency.AUTOCUIDADO⟩

/-- A synthetic disease with emergency urgency. -/
def emergencyDisease : Disease := ⟨"TE", ∅, ∅, ∅, ∅, Urgency.EMERGENCIA⟩

/-- A synthetic disease with urgent-visit urgency. -/
def urgentDisease : Disease := ⟨"TU", ∅, ∅, ∅, ∅, Urgency.CONSULTA_URGENTE⟩

/-- A placeholder result for total head operations on result lists. -/
def dummyResult : DiagnosisResult := ⟨noSetsDisease, 0, ∅, ∅, "BAJO"⟩

/-- A patient reporting the single symptom required by `tinyDisease`. -/
def matchedPatient : PatientSymptoms :=
  emptyPatient.add_symptom "A" SeverityLevel.MODERADO 3 ""

/-- A one-disease catalog for concrete instantiations. -/
def tinyKB : List Disease := [tinyDisease]

/-- The first result of diagnosing `matchedPatient` against `tinyKB`. -/
def headResult : DiagnosisResult :=
  ((diagnose tinyKB [] matchedPatient 5).head?).getD dummyResult

/-- A disease requiring "A" with common symptom "B" (C2 fixtures). -/
def durDisease : Disease := ⟨"T2", {"A"}, {"B"}, ∅, ∅, Urgency.AUTOCUIDADO⟩

/-- A patient reporting "A" for 4 days and "B" with duration 0: "B" is in the
matched set but contributes no positive duration. -/
def durPatient : PatientSymptoms :=
  (emptyPatient.add_symptom "A" SeverityLevel.MODERADO 4 "").add_symptom
    "B" SeverityLevel.MODERADO 0 ""

/-- A patient reporting "A" for 4 days and "B" for 6 days (all positive). -/
def durPosPatient : PatientSymptoms :=
  (emptyPatient.add_symptom "A" SeverityLevel.MODERADO 4 "").add_symptom
    "B" SeverityLevel.MODERADO 6 ""

/-- The patient for the C1 counterexample: five moderate 3-day symptoms that
let several respiratory diseases through the 0.25 filter at once. -/
def c1Patient : PatientSymptoms :=
  ((((emptyPatient.add_symptom "FIEBRE" SeverityLevel.MODERADO 3 "").add_symptom
      "FATIGA" SeverityLevel.MODERADO 3 "").add_symptom
      "TOS_SECA" SeverityLevel.MODERADO 3 "").add_symptom
      "TOS_PRODUCTIVA" SeverityLevel.MODERADO 3 "").add_symptom
      "CONGESTION_NASAL" SeverityLevel.MODERADO 3 ""

/-- The shipped GRIPE disease, looked up from the embedded catalog. -/
def gripeDisease : Disease := (get_disease realKB "GRIPE").getD noSetsDisease

/-- The shipped ASMA disease, looked up from the embedded catalog. -/
def asmaDisease : Disease := (get_disease realKB "ASMA").getD noSetsDisease

/-- A patient with the two ASMA required symptoms plus its excluding FIEBRE. -/
def asmaPatient : PatientSymptoms :=
  ((emptyPatient.add_symptom "DIFICULTAD_RESPIRAR" SeverityLevel.MODERADO 2 "").add_symptom
      "SIBILANCIAS" SeverityLevel.MODERADO 2 "").add_symptom
      "FIEBRE" SeverityLevel.MODERADO 2 ""

/-- A patient with exactly the GRIPE required symptoms. -/
def fluPatient : PatientSymptoms :=
  (emptyPatient.add_symptom "FIEBRE" SeverityLevel.MODERADO 3 "").add_symptom
    "FATIGA" SeverityLevel.MODERADO 3 ""

/-- A patient whose aggregate severity score over the shipped registry
exceeds 20 (2.0*3 + 2.5*4 + 2.8*3 = 24.4). -/
def severePatient : PatientSymptoms :=
  ((emptyPatient.add_symptom "FIEBRE" SeverityLevel.GRAVE 2 "").add_symptom
      "DIFICULTAD_RESPIRAR" SeverityLevel.CRITICO 2 "").add_symptom
      "EXPECTORACION_SANGRE" SeverityLevel.GRAVE 2 ""

/-- Adding FIEBRE with a note and then re-adding it with an empty note. -/
def notedPatient : PatientSymptoms :=
  (emptyPatient.add_symptom "FIEBRE" SeverityLevel.GRAVE 3 "nota previa").add_symptom
    "FIEBRE" SeverityLevel.MODERADO 2 ""


section ClaimProofs

attribute [local semireducible] Rat.mul Rat.add Rat.sub Rat.inv Rat.ofScientific

theorem requiredScore_nonneg (d : Disease) (P : Finset String) :
    0 ≤ requiredScore d P := by
  unfold requiredScore
  split
  · positivity
  · norm_num

theorem requiredScore_le_one (d : Disease) (P : Finset String) :
    requiredScore d P ≤ 1 := by
  unfold requiredScore
  split
  · rename_i h
    have hcard : (d.required_symptoms ∩ P).card ≤ d.required_symptoms.card :=
      Finset.card_le_card Finset.inter_subset_left
    have hpos : 0 < (d.required_symptoms.card : ℚ) := by
      have hne : d.required_symptoms.Nonempty := Finset.nonempty_iff_ne_empty.mpr h
      exact_mod_cast Finset.card_pos.mpr hne
    rw [div_le_one hpos]
    exact_mod_cast hcard
  · norm_num

theorem evaluateDisease_confidence_nonneg (reg : List (String × ℚ)) (d : Disease)
    (p : PatientSymptoms) : 0 ≤ (evaluateDisease reg d p).confidence := by
  unfold evaluateDisease
  split
  · show 0 ≤ requiredScore d p.symptoms * 0.3
    have h0 := requiredScore_nonneg d p.symptoms
    positivity
  · show 0 ≤ clampedConfidence d p
    exact le_max_left 0 _

theorem evaluateDisease_confidence_le_one (reg : List (String × ℚ)) (d : Disease)
    (p : PatientSymptoms) : (evaluateDisease reg d p).confidence ≤ 1 := by
  unfold evaluateDisease
  split
  · show requiredScore d p.symptoms * 0.3 ≤ 1
    have h0 := requiredScore_nonneg d p.symptoms
    have h1 := requiredScore_le_one d p.symptoms
    nlinarith
  · show clampedConfidence d p ≤ 1
    exact max_le (by norm_num) (min_le_left 1 _)

/-- C8: a disease with an empty required set gets required_score 1.0, an empty
common set gets common_score 0.5, and an empty optional set gets
optional_score 0.5, so _evaluate_disease never divides by the size of an
empty symptom set. -/
theorem c8_degenerate_sets_fallback (d : Disease) (P : Finset String) :
    (d.required_symptoms = ∅ → requiredScore d P = 1) ∧
    (d.common_symptoms = ∅ → commonScore d P = 0.5) ∧
    (d.optional_symptoms = ∅ → optionalScore d P = 0.5) := by
  refine ⟨fun h => ?_, fun h => ?_, fun h => ?_⟩ <;>
    simp [requiredScore, commonScore, optionalScore, h]

theorem c8_degenerate_sets_fallback_witness :
    requiredScore noSetsDisease ∅ = 1 ∧ commonScore noSetsDisease ∅ = 0.5 ∧
    optionalScore noSetsDisease ∅ = 0.5 :=
  ⟨(c8_degenerate_sets_fallback noSetsDisease ∅).1 rfl,
   (c8_degenerate_sets_fallback noSetsDisease ∅).2.1 rfl,
   (c8_degenerate_sets_fallback noSetsDisease ∅).2.2 rfl⟩

/-- C3: when required_score < 0.5, _evaluate_disease returns immediately with
confidence exactly required_score * 0.3, matched_symptoms = required ∩
reported, missing_key_symptoms = required minus reported, and the default
risk level, with no severity or duration multiplier applied. -/
theorem c3_required_gate_early_out (reg : List (String × ℚ)) (d : Disease)
    (p : PatientSymptoms) (h : requiredScore d p.symptoms < 0.5) :
    evaluateDisease reg d p =
      ⟨d, requiredScore d p.symptoms * 0.3, d.required_symptoms ∩ p.symptoms,
       d.required_symptoms \ p.symptoms, "BAJO"⟩ := by
  simp [evaluateDisease, h]

theorem c3_required_gate_early_out_witness :
    requiredScore tinyDisease emptyPatient.symptoms < 0.5 ∧
    evaluateDisease [] tinyDisease emptyPatient =
      ⟨tinyDisease, requiredScore tinyDisease emptyPatient.symptoms * 0.3,
       tinyDisease.required_symptoms ∩ emptyPatient.symptoms,
       tinyDisease.required_symptoms \ emptyPatient.symptoms, "BAJO"⟩ :=
  ⟨by decide, c3_required_gate_early_out [] tinyDisease emptyPatient (by decide)⟩

/-- C10 counterexample: after re-adding FIEBRE with an empty note, the prior
note is retained (the note is not the newly supplied empty value). -/
theorem c10_add_symptom_note_counterexample :
    notedPatient.notes "FIEBRE" ≠ some "" ∧
    notedPatient.notes "FIEBRE" ≠ none ∧
    notedPatient.notes "FIEBRE" = some "nota previa" ∧
    notedPatient.severity_levels "FIEBRE" = some SeverityLevel.MODERADO ∧
    notedPatient.duration_days "FIEBRE" = some 2 := by decide

/-- C10 amended: re-adding a symptom replaces its severity and duration with
the newly supplied values and keeps entries unique per id, but the note is
overwritten only when the new note is non-empty; an empty new note leaves the
prior note in place. -/
theorem c10_add_symptom_amended (p : PatientSymptoms) (sid : String)
    (sev : SeverityLevel) (dur : Int) (note : String) :
    ((p.add_symptom sid sev dur note).symptoms = insert sid p.symptoms) ∧
    ((p.add_symptom sid sev dur note).severity_levels sid = some sev) ∧
    ((p.add_symptom sid sev dur note).duration_days sid = some dur) ∧
    (note ≠ "" → (p.add_symptom sid sev dur note).notes sid = some note) ∧
    (note = "" → (p.add_symptom sid sev dur note).notes sid = p.notes sid) := by
  unfold PatientSymptoms.add_symptom
  exact ⟨rfl, by simp, by simp, fun h => by simp [h], fun h => by simp [h]⟩

theorem c10_add_symptom_amended_witness :
    ((emptyPatient.add_symptom "X" SeverityLevel.GRAVE 2 "hola").notes "X" = some "hola") ∧
    ((emptyPatient.add_symptom "X" SeverityLevel.GRAVE 2 "").notes "X" = emptyPatient.notes "X") :=
  ⟨(c10_add_symptom_amended emptyPatient "X" SeverityLevel.GRAVE 2 "hola").2.2.2.1 (by decide),
   (c10_add_symptom_amended emptyPatient "X" SeverityLevel.GRAVE 2 "").2.2.2.2 rfl⟩

/-- C2 counterexample: for a matched required+common set containing a symptom
with duration 0, the source multiplier (average over positive durations only)
differs from the claim's piecewise function of the average over the whole
matched set. -/
theorem c2_duration_counterexample :
    durationMultiplier durPatient
        ((durDisease.required_symptoms ∩ durPatient.symptoms) ∪
          (durDisease.common_symptoms ∩ durPatient.symptoms)) ≠
      claimDurationMultiplier durPatient
        ((durDisease.required_symptoms ∩ durPatient.symptoms) ∪
          (durDisease.common_symptoms ∩ durPatient.symptoms)) ∧
    durationMultiplier durPatient
        ((durDisease.required_symptoms ∩ durPatient.symptoms) ∪
          (durDisease.common_symptoms ∩ durPatient.symptoms)) = 1.06 ∧
    claimDurationMultiplier durPatient
        ((durDisease.required_symptoms ∩ durPatient.symptoms) ∪
          (durDisease.common_symptoms ∩ durPatient.symptoms)) = 1.02 := by decide

/-- C2 amended: the duration multiplier averages only over matched symptoms
with a positive reported duration (1.0 when there are none, or when the
matched set is empty); when every matched symptom has a positive duration it
is exactly the claim's piecewise function of the average reported duration,
with no lower clamp on the long-duration branch. -/
theorem c2_duration_multiplier_amended (p : PatientSymptoms) (matched : Finset String)
    (hne : matched ≠ ∅) (hpos : ∀ s ∈ matched, 0 < p.get_duration s) :
    durationMultiplier p matched = claimDurationMultiplier p matched := by
  have hf : matched.filter (fun s => 0 < p.get_duration s) = matched :=
    Finset.filter_true_of_mem hpos
  unfold durationMultiplier claimDurationMultiplier
  simp only [if_neg hne, hf]

theorem c2_duration_multiplier_amended_witness :
    durationMultiplier durPosPatient {"A", "B"} =
      claimDurationMultiplier durPosPatient {"A", "B"} :=
  c2_duration_multiplier_amended durPosPatient {"A", "B"} (by decide) (by decide)


/-- C6: _determine_risk_level follows the exact precedence: CRÍTICO for
emergency urgency; else ALTO for urgent-visit urgency; else ALTO when the
patient's aggregate severity score exceeds 20; else MODERADO when confidence
exceeds 0.70; else BAJO. -/
theorem c6_risk_level_precedence (reg : List (String × ℚ)) (d : Disease)
    (c : ℚ) (p : PatientSymptoms) :
    (d.urgency = Urgency.EMERGENCIA → determineRiskLevel reg d c p = "CRÍTICO") ∧
    (d.urgency ≠ Urgency.EMERGENCIA → d.urgency = Urgency.CONSULTA_URGENTE →
      determineRiskLevel reg d c p = "ALTO") ∧
    (d.urgency ≠ Urgency.EMERGENCIA → d.urgency ≠ Urgency.CONSULTA_URGENTE →
      20 < calculate_severity_score reg p → determineRiskLevel reg d c p = "ALTO") ∧
    (d.urgency ≠ Urgency.EMERGENCIA → d.urgency ≠ Urgency.CONSULTA_URGENTE →
      ¬ 20 < calculate_severity_score reg p → HIGH_CONFIDENCE_THRESHOLD < c →
      determineRiskLevel reg d c p = "MODERADO") ∧
    (d.urgency ≠ Urgency.EMERGENCIA → d.urgency ≠ Urgency.CONSULTA_URGENTE →
      ¬ 20 < calculate_severity_score reg p → ¬ HIGH_CONFIDENCE_THRESHOLD < c →
      determineRiskLevel reg d c p = "BAJO") := by
  unfold determineRiskLevel
  refine ⟨fun h1 => ?_, fun h1 h2 => ?_, fun h1 h2 h3 => ?_,
    fun h1 h2 h3 h4 => ?_, fun h1 h2 h3 h4 => ?_⟩ <;> simp [*]

theorem c6_risk_level_precedence_witness :
    determineRiskLevel realRegistry emergencyDisease 0 emptyPatient = "CRÍTICO" ∧
    determineRiskLevel realRegistry urgentDisease 0 emptyPatient = "ALTO" ∧
    determineRiskLevel realRegistry noSetsDisease 0 severePatient = "ALTO" ∧
    determineRiskLevel realRegistry noSetsDisease 0.8 emptyPatient = "MODERADO" ∧
    determineRiskLevel realRegistry noSetsDisease 0.5 emptyPatient = "BAJO" :=
  ⟨(c6_risk_level_precedence realRegistry emergencyDisease 0 emptyPatient).1 rfl,
   (c6_risk_level_precedence realRegistry urgentDisease 0 emptyPatient).2.1
     (by decide) rfl,
   (c6_risk_level_precedence realRegistry noSetsDisease 0 severePatient).2.2.1
     (by decide) (by decide) (by decide),
   (c6_risk_level_precedence realRegistry noSetsDisease 0.8 emptyPatient).2.2.2.1
     (by decide) (by decide) (by decide) (by decide),
   (c6_risk_level_precedence realRegistry noSetsDisease 0.5 emptyPatient).2.2.2.2
     (by decide) (by decide) (by decide) (by decide)⟩

/-- C7: backward_chain fails with the not-found outcome for unknown ids;
for a known disease it reports missing required symptoms first (whenever some
required symptom is absent), then excluding symptoms (whenever one is
present); and a true outcome implies every required symptom is reported and
no excluding symptom is. -/
theorem c7_backward_chain_soundness (kb : List Disease) (tid : String)
    (p : PatientSymptoms) :
    (get_disease kb tid = none →
      backward_chain kb tid p = (false, BackwardOutcome.diseaseNotFound)) ∧
    (∀ d, get_disease kb tid = some d → ¬ d.required_symptoms ⊆ p.symptoms →
      backward_chain kb tid p =
        (false, BackwardOutcome.missingRequired (d.required_symptoms \ p.symptoms))) ∧
    (∀ d, get_disease kb tid = some d → d.required_symptoms ⊆ p.symptoms →
      d.excluding_symptoms ∩ p.symptoms ≠ ∅ →
      backward_chain kb tid p =
        (false, BackwardOutcome.excludingPresent (d.excluding_symptoms ∩ p.symptoms))) ∧
    ((backward_chain kb tid p).1 = true →
      ∃ d, get_disease kb tid = some d ∧ d.required_symptoms ⊆ p.symptoms ∧
        d.excluding_symptoms ∩ p.symptoms = ∅) := by
  refine ⟨fun h => ?_, fun d hd hreq => ?_, fun d hd hsub hex => ?_, fun htrue => ?_⟩
  · unfold backward_chain
    rw [h]
  · unfold backward_chain
    rw [hd]
    have hne : d.required_symptoms \ p.symptoms ≠ ∅ := by
      rw [Ne, Finset.sdiff_eq_empty_iff_subset]
      exact hreq
    simp [hne]
  · unfold backward_chain
    rw [hd]
    have hemp : d.required_symptoms \ p.symptoms = ∅ :=
      Finset.sdiff_eq_empty_iff_subset.mpr hsub
    simp [hemp, hex]
  · unfold backward_chain at htrue
    cases hgd : get_disease kb tid with
    | none =>
      rw [hgd] at htrue
      simp at htrue
    | some d =>
      rw [hgd] at htrue
      refine ⟨d, rfl, ?_⟩
      by_cases h1 : d.required_symptoms \ p.symptoms ≠ ∅
      · simp [h1] at htrue
      · by_cases h2 : d.excluding_symptoms ∩ p.symptoms ≠ ∅
        · simp [h1, h2] at htrue
        · push_neg at h1 h2
          exact ⟨Finset.sdiff_eq_empty_iff_subset.mp h1, h2⟩

theorem c7_backward_chain_soundness_witness :
    backward_chain realKB "NO_EXISTE" emptyPatient =
      (false, BackwardOutcome.diseaseNotFound) ∧
    backward_chain realKB "GRIPE" emptyPatient =
      (false, BackwardOutcome.missingRequired
        (gripeDisease.required_symptoms \ emptyPatient.symptoms)) ∧
    backward_chain realKB "ASMA" asmaPatient =
      (false, BackwardOutcome.excludingPresent
        (asmaDisease.excluding_symptoms ∩ asmaPatient.symptoms)) ∧
    (∃ d, get_disease realKB "GRIPE" = some d ∧
      d.required_symptoms ⊆ fluPatient.symptoms ∧
      d.excluding_symptoms ∩ fluPatient.symptoms = ∅) :=
  ⟨(c7_backward_chain_soundness realKB "NO_EXISTE" emptyPatient).1 (by decide),
   (c7_backward_chain_soundness realKB "GRIPE" emptyPatient).2.1 gripeDisease
     (by decide) (by decide),
   (c7_backward_chain_soundness realKB "ASMA" asmaPatient).2.2.1 asmaDisease
     (by decide) (by decide) (by decide),
   (c7_backward_chain_soundness realKB "GRIPE" fluPatient).2.2.2 (by decide)⟩

/-- C9: with no reported symptoms no disease of the shipped catalog reaches
the 0.25 threshold, so diagnose returns the empty list. -/
theorem c9_empty_report_no_diagnosis :
    diagnose realKB realRegistry emptyPatient 5 = [] := by decide

/-- C1 counterexample: on the shipped catalog a five-symptom report yields a
returned result whose post-renormalization confidence is below 0.25. -/
theorem c1_threshold_counterexample :
    (diagnose realKB realRegistry c1Patient 5).any
      (fun r => decide (r.confidence < MIN_CONFIDENCE_THRESHOLD)) = true := by decide


theorem mem_sortDescending (l : List DiagnosisResult) (x : DiagnosisResult) :
    x ∈ sortDescending l ↔ x ∈ l := by
  unfold sortDescending
  exact (List.perm_insertionSort confGE l).mem_iff

theorem mem_candidateResults (kb : List Disease) (reg : List (String × ℚ))
    (p : PatientSymptoms) (x : DiagnosisResult)
    (hx : x ∈ candidateResults kb reg p) :
    (∃ d ∈ kb, x = evaluateDisease reg d p) ∧
      MIN_CONFIDENCE_THRESHOLD ≤ x.confidence := by
  unfold candidateResults at hx
  rw [List.mem_filter] at hx
  obtain ⟨hmem, hconf⟩ := hx
  rw [List.mem_map] at hmem
  obtain ⟨d, hd, hxd⟩ := hmem
  exact ⟨⟨d, hd, hxd.symm⟩, of_decide_eq_true hconf⟩

theorem confidence_le_totalConfidence (l : List DiagnosisResult)
    (hall : ∀ x ∈ l, MIN_CONFIDENCE_THRESHOLD ≤ x.confidence)
    (x : DiagnosisResult) (hx : x ∈ l) :
    x.confidence ≤ totalConfidence l := by
  apply List.single_le_sum
  · intro q hq
    rw [List.mem_map] at hq
    obtain ⟨y, hy, hqy⟩ := hq
    have h1 := hall y hy
    have h0 : (0:ℚ) ≤ MIN_CONFIDENCE_THRESHOLD := by
      norm_num [MIN_CONFIDENCE_THRESHOLD]
    rw [← hqy]
    linarith
  · exact List.mem_map_of_mem _ hx

theorem totalConfidence_pos (l : List DiagnosisResult) (hne : l ≠ [])
    (hall : ∀ x ∈ l, MIN_CONFIDENCE_THRESHOLD ≤ x.confidence) :
    0 < totalConfidence l := by
  obtain ⟨y, hy⟩ := List.exists_mem_of_ne_nil l hne
  have h1 : MIN_CONFIDENCE_THRESHOLD ≤ y.confidence := hall y hy
  have h2 : y.confidence ≤ totalConfidence l :=
    confidence_le_totalConfidence l hall y hy
  have h0 : (0:ℚ) < MIN_CONFIDENCE_THRESHOLD := by
    norm_num [MIN_CONFIDENCE_THRESHOLD]
  linarith

theorem mem_normalizeConfidences (l : List DiagnosisResult)
    (hpos : 0 < totalConfidence l) (r : DiagnosisResult)
    (hr : r ∈ normalizeConfidences l) :
    ∃ x ∈ l, r.confidence =
      0.7 * (x.confidence * (1 / totalConfidence l)) + 0.3 * x.confidence := by
  unfold normalizeConfidences at hr
  by_cases hl : l = []
  · rw [hl] at hr
    simp at hr
  · rw [if_neg hl, if_pos hpos, List.mem_map] at hr
    obtain ⟨x, hx, hxr⟩ := hr
    exact ⟨x, hx, by rw [← hxr]⟩

theorem mem_diagnose_decompose (kb : List Disease) (reg : List (String × ℚ))
    (p : PatientSymptoms) (k : ℕ) (r : DiagnosisResult)
    (hr : r ∈ diagnose kb reg p k) :
    ∃ x, (∃ d ∈ kb, x = evaluateDisease reg d p) ∧
      MIN_CONFIDENCE_THRESHOLD ≤ x.confidence ∧
      x.confidence ≤ totalConfidence (sortedCandidates kb reg p) ∧
      0 < totalConfidence (sortedCandidates kb reg p) ∧
      r.confidence =
        0.7 * (x.confidence * (1 / totalConfidence (sortedCandidates kb reg p))) +
          0.3 * x.confidence := by
  unfold diagnose at hr
  have hr' := List.mem_of_mem_take hr
  have hall : ∀ x ∈ sortedCandidates kb reg p,
      MIN_CONFIDENCE_THRESHOLD ≤ x.confidence := by
    intro x hx
    unfold sortedCandidates at hx
    rw [mem_sortDescending] at hx
    exact (mem_candidateResults kb reg p x hx).2
  by_cases hs : sortedCandidates kb reg p ≠ []
  · rw [if_pos hs] at hr'
    have hpos := totalConfidence_pos _ hs hall
    obtain ⟨x, hx, hconf⟩ := mem_normalizeConfidences _ hpos r hr'
    have hx2 := hx
    unfold sortedCandidates at hx2
    rw [mem_sortDescending] at hx2
    obtain ⟨hd, hmin⟩ := mem_candidateResults kb reg p x hx2
    exact ⟨x, hd, hmin, confidence_le_totalConfidence _ hall x hx, hpos, hconf⟩
  · rw [if_neg hs] at hr'
    push_neg at hs
    rw [hs] at hr'
    simp at hr'

/-- C4: the confidence computed by _evaluate_disease lies in [0, 1] for every
disease and report, and so does the confidence of every result returned by
diagnose, after the renormalization blend. -/
theorem c4_confidence_bounds (kb : List Disease) (reg : List (String × ℚ))
    (d : Disease) (p : PatientSymptoms) (k : ℕ) :
    (0 ≤ (evaluateDisease reg d p).confidence ∧
      (evaluateDisease reg d p).confidence ≤ 1) ∧
    ∀ r ∈ diagnose kb reg p k, 0 ≤ r.confidence ∧ r.confidence ≤ 1 := by
  refine ⟨⟨evaluateDisease_confidence_nonneg reg d p,
    evaluateDisease_confidence_le_one reg d p⟩, fun r hr => ?_⟩
  obtain ⟨x, ⟨d2, hd2, hx⟩, hmin, hxT, hT, hconf⟩ :=
    mem_diagnose_decompose kb reg p k r hr
  have hx1 : x.confidence ≤ 1 := by
    rw [hx]
    exact evaluateDisease_confidence_le_one reg d2 p
  have hx0 : (0:ℚ) ≤ x.confidence := by
    have h0 : (0:ℚ) ≤ MIN_CONFIDENCE_THRESHOLD := by
      norm_num [MIN_CONFIDENCE_THRESHOLD]
    linarith
  have hinv : (0:ℚ) < 1 / totalConfidence (sortedCandidates kb reg p) :=
    one_div_pos.mpr hT
  have hd1 : x.confidence * (1 / totalConfidence (sortedCandidates kb reg p)) ≤ 1 := by
    rw [mul_one_div]
    exact (div_le_one hT).mpr hxT
  have hd0 : 0 ≤ x.confidence * (1 / totalConfidence (sortedCandidates kb reg p)) :=
    mul_nonneg hx0 (le_of_lt hinv)
  constructor
  · rw [hconf]
    nlinarith
  · rw [hconf]
    nlinarith

theorem c4_confidence_bounds_witness :
    0 ≤ headResult.confidence ∧ headResult.confidence ≤ 1 :=
  (c4_confidence_bounds tinyKB [] tinyDisease matchedPatient 5).2
    headResult (by decide)

/-- C1 amended: the 0.25 threshold is applied before the renormalization
blend, and the blend can push a returned confidence below 0.25; what holds of
the returned list is that every confidence is the blend
0.7 * (c / total) + 0.3 * c of some pre-normalization confidence c ≥ 0.25
with positive total, hence strictly greater than 0.075 = 0.3 * 0.25. -/
theorem c1_threshold_amended (kb : List Disease) (reg : List (String × ℚ))
    (p : PatientSymptoms) (k : ℕ) :
    ∀ r ∈ diagnose kb reg p k, (0.075:ℚ) < r.confidence ∧
      ∃ c T, MIN_CONFIDENCE_THRESHOLD ≤ c ∧ 0 < T ∧
        r.confidence = 0.7 * (c * (1 / T)) + 0.3 * c := by
  intro r hr
  obtain ⟨x, hd, hmin, hxT, hT, hconf⟩ := mem_diagnose_decompose kb reg p k r hr
  refine ⟨?_, x.confidence, totalConfidence (sortedCandidates kb reg p),
    hmin, hT, hconf⟩
  have hmin25 : (0.25:ℚ) ≤ x.confidence := hmin
  have hpos : 0 < x.confidence * (1 / totalConfidence (sortedCandidates kb reg p)) :=
    mul_pos (by linarith) (one_div_pos.mpr hT)
  rw [hconf]
  nlinarith

theorem c1_threshold_amended_witness :
    (0.075:ℚ) < headResult.confidence ∧
      ∃ c T, MIN_CONFIDENCE_THRESHOLD ≤ c ∧ 0 < T ∧
        headResult.confidence = 0.7 * (c * (1 / T)) + 0.3 * c :=
  c1_threshold_amended tinyKB [] matchedPatient 5 headResult (by decide)

theorem normalizeConfidences_sorted (l : List DiagnosisResult)
    (h : List.Sorted confGE l) :
    List.Sorted confGE (normalizeConfidences l) := by
  by_cases hl : l = []
  · rw [hl]
    simp [normalizeConfidences]
  · unfold normalizeConfidences
    rw [if_neg hl]
    by_cases hpos : 0 < totalConfidence l
    · rw [if_pos hpos]
      refine List.Pairwise.map _ ?_ h
      intro a b hab
      show (⟨b.disease, _, b.matched_symptoms, b.missing_key_symptoms,
        b.risk_level⟩ : DiagnosisResult).confidence ≤ _
      have hinv : (0:ℚ) ≤ 1 / totalConfidence l :=
        le_of_lt (one_div_pos.mpr hpos)
      have key : 0 ≤ (a.confidence - b.confidence) * (1 / totalConfidence l) :=
        mul_nonneg (sub_nonneg.mpr hab) hinv
      show 0.7 * (b.confidence * (1 / totalConfidence l)) + 0.3 * b.confidence ≤
        0.7 * (a.confidence * (1 / totalConfidence l)) + 0.3 * a.confidence
      have hab2 : b.confidence ≤ a.confidence := hab
      nlinarith
    · rw [if_neg hpos]
      exact h

/-- C5: the list returned by diagnose is non-increasing in confidence: every
earlier result's confidence is at least every later one's, and the order
survives the renormalization applied after sorting. -/
theorem c5_sort_invariant (kb : List Disease) (reg : List (String × ℚ))
    (p : PatientSymptoms) (k : ℕ) :
    List.Sorted (fun a b => b.confidence ≤ a.confidence) (diagnose kb reg p k) := by
  have hs : List.Sorted confGE (sortedCandidates kb reg p) :=
    List.sorted_insertionSort confGE (candidateResults kb reg p)
  have hnormed : List.Sorted confGE
      (if sortedCandidates kb reg p ≠ [] then
        normalizeConfidences (sortedCandidates kb reg p)
      else sortedCandidates kb reg p) := by
    split
    · exact normalizeConfidences_sorted _ hs
    · exact hs
  unfold diagnose
  exact List.Pairwise.sublist (List.take_sublist k _) hnormed

end ClaimProofs

end MedDiag
